import Mathlib

/-!
Shallow embedding of the Action/Reaction dispatch-and-polling engine of the
AREA automation server (Go sources under `backend/service/` and the service
schema files).  Each Go Action/Reaction handler is translated into a pure
Lean function from an environment record (the values the handler obtains
from its collaborators: decoded options, the persisted state blob, the
token store, the upstream HTTP responses, the clock, and the outcomes of
`areaRepository.Update` calls) to the ordered list of engine-observable
events it performs: repository updates of the `StorageVariable` blob,
facts sent on the channel, and sleeps.

Modelling conventions, fixed once for the whole file:
* JSON byte blobs (`json.RawMessage`) are modelled by `Blob`: either not
  valid JSON (`empty` for the zero-length blob, `malformed` for other
  unparseable bytes) or a parsed JSON tree `Json`.
* `encoding/json` semantics used by the sources: unmarshalling into a Go
  struct succeeds exactly on JSON objects (unknown fields ignored, missing
  fields left at their zero value) and on `null` (a no-op); unmarshalling
  into `struct{}{}` (the probe) succeeds exactly on objects and `null`;
  unmarshalling anything else (numbers, strings, arrays, booleans,
  invalid bytes) into a struct fails.
* `time.Time` values are modelled as integers (seconds); the RFC3339
  string a `time.Time` field marshals to is represented by `Json.num` of
  the instant it denotes, so a non-time string in that field is a decode
  error, matching the Go behaviour.  `time.Time.IsZero` becomes `= 0`,
  `Before` becomes `<`, `Add(time.Minute)` becomes `+ 60`.
* The outcomes of successive `areaRepository.Update` calls are supplied by
  the environment as a list of booleans consumed in order (an exhausted
  list means the call succeeds), so a single invocation is a function of
  its environment.
* Log output (`println`/`fmt.Println`) is not observable to the engine and
  is not recorded.
-/

/-- Parsed JSON values, the image of valid JSON bytes. -/
inductive Json where
  | null
  | bool (b : Bool)
  | num (n : Int)
  | str (s : String)
  | arr (xs : List Json)
  | obj (fields : List (String × Json))

/-- A `json.RawMessage` byte blob: the zero-length blob, non-JSON bytes, or
valid JSON bytes abstracted by their parse tree. -/
inductive Blob where
  | empty
  | malformed
  | json (j : Json)

/-- Engine-observable effects of one handler invocation, in program order:
a call to `areaRepository.Update` carrying the new `StorageVariable` blob
and whether the repository reported success, a fact sent on the channel,
and a `time.Sleep` of the given number of seconds. -/
inductive Event where
  | update (blob : Blob) (ok : Bool)
  | emit (fact : String)
  | sleep (seconds : Nat)

/-- Unmarshalling a blob into `struct{}{}` (the probe the handlers use to
tell a wrong-shape blob from generally bad JSON): succeeds exactly on JSON
objects and `null`. -/
def probeOk : Blob → Bool
  | .json .null => true
  | .json (.obj _) => true
  | _ => false

/-- Decoding one Go `int` struct field from a JSON object: a missing field
or `null` leaves the zero value, a number is taken, anything else is a
decode error. -/
def decodeIntField (fields : List (String × Json)) (key : String) : Option Int :=
  match List.lookup key fields with
  | none => some 0
  | some (.num n) => some n
  | some .null => some 0
  | some _ => none

/-- Decoding one Go `string` struct field from a JSON object. -/
def decodeStrField (fields : List (String × Json)) (key : String) : Option String :=
  match List.lookup key fields with
  | none => some ""
  | some (.str s) => some s
  | some .null => some ""
  | some _ => none

/-- Decoding a storage struct holding a single `time.Time` field tagged
`time` (`schemas.TimerActionSpecificHourStorage` and
`schemas.MicrosoftVariableReceiveMail` have exactly this shape); the
result is the stored instant. -/
def decodeTimeBlob : Blob → Option Int
  | .json .null => some 0
  | .json (.obj fields) => decodeIntField fields "time"
  | _ => none

/-- Marshalling the single-`time.Time`-field storage struct back to bytes;
`json.Marshal` cannot fail on it. -/
def marshalTimeBlob (t : Int) : Blob :=
  .json (.obj [("time", .num t)])

/-- The inter-cycle sleep both the timer and the Spotify Action perform,
verbatim from the sources:
`if area.Action.MinimumRefreshRate > area.ActionRefreshRate` sleep the
minimum, else sleep the area's refresh rate. -/
def effectiveSleep (minimumRefreshRate actionRefreshRate : Nat) : Nat :=
  if minimumRefreshRate > actionRefreshRate then minimumRefreshRate
  else actionRefreshRate

/-! ## Timer service (`backend/service/timer-service.go`) -/

/-- Option payload of the `SpecificTime` Action
(`schemas.TimerActionSpecificHour`). -/
structure TimerActionSpecificHourOption where
  hour : Int
  minute : Int
deriving DecidableEq, Repr

/-- Decoding the timer Action option (`json.Unmarshal` into
`schemas.TimerActionSpecificHour`). -/
def decodeTimerOption : Blob → Option TimerActionSpecificHourOption
  | .json .null => some ⟨0, 0⟩
  | .json (.obj fields) =>
    match decodeIntField fields "hour", decodeIntField fields "minute" with
    | some h, some m => some ⟨h, m⟩
    | _, _ => none
  | _ => none

/-- The result of `getActualTime` (timeapi.io): the instant the handler
rebuilds with `time.Date` plus the fields it compares and prints. -/
structure TimeApiResponse where
  instant : Int
  hour : Int
  minute : Int
  timeStr : String
deriving DecidableEq, Repr

/-- Environment of one `TimerActionSpecificHour` invocation. -/
structure TimerEnv where
  option : Blob
  timeApi : Option TimeApiResponse
  storage : Blob
  now : Int
  updates : List Bool
  minimumRefreshRate : Nat
  actionRefreshRate : Nat

/-- Outcome of one block of a handler body: an early `return` that already
performed the given events, or a fall-through to the next block carrying a
value, the events performed so far, and the remaining update-outcome
oracle. -/
inductive Step (α : Type) where
  | done (events : List Event)
  | cont (a : α) (events : List Event) (updates : List Bool)

/-- The storage-initialisation statements shared by the timer blocks:
marshal a storage struct holding `initValue` and call
`areaRepository.Update`, returning on a repository error. -/
def timerStorageInit (initValue : Int) (updates : List Bool) : Step Int :=
  match updates with
  | [] => .cont initValue [Event.update (marshalTimeBlob initValue) true] []
  | ok :: rest =>
    if ok then .cont initValue [Event.update (marshalTimeBlob initValue) true] rest
    else .done [Event.update (marshalTimeBlob initValue) false]

/-- The timer storage-variable block (timer-service.go lines 277-301):
unmarshal the stored blob; on failure probe with `struct{}{}`; if the probe
succeeds initialise the storage to `time.Now()` and persist, else return. -/
def timerStorageBlock (storage : Blob) (now : Int) (updates : List Bool) : Step Int :=
  match decodeTimeBlob storage with
  | some t => .cont t [] updates
  | none =>
    if probeOk storage then timerStorageInit now updates
    else .done []

/-- The timer `IsZero` block (timer-service.go lines 303-318): a zero
stored time is re-initialised to `time.Now()` and persisted. -/
def timerZeroBlock (t : Int) (now : Int) (updates : List Bool) : Step Int :=
  if t = 0 then timerStorageInit now updates
  else .cont t [] updates

/-- `TimerActionSpecificHour` (timer-service.go lines 256-356), as the list
of events one invocation performs.  Control flow mirrors the source: option
unmarshal error and `getActualTime` error sleep one second and return;
storage-blob handling re-initialises through the `struct{}{}` probe and the
`IsZero` check; a fire persists `now + one minute` before sending the fact;
the final sleep is the `MinimumRefreshRate`/`ActionRefreshRate` comparison. -/
def timerActionSpecificHour (env : TimerEnv) : List Event :=
  match decodeTimerOption env.option with
  | none => [.sleep 1]
  | some opt =>
    match env.timeApi with
    | none => [.sleep 1]
    | some api =>
      match timerStorageBlock env.storage env.now env.updates with
      | .done es => es
      | .cont t₀ es₀ upd₀ =>
        match timerZeroBlock t₀ env.now upd₀ with
        | .done es => es₀ ++ es
        | .cont t₁ es₁ upd₁ =>
          -- fire block and final inter-cycle sleep
          if t₁ < api.instant ∧ api.hour = opt.hour ∧ api.minute = opt.minute then
            match upd₁ with
            | [] =>
              es₀ ++ es₁ ++ [Event.update (marshalTimeBlob (env.now + 60)) true,
                      Event.emit ("current time is " ++ api.timeStr),
                      Event.sleep (effectiveSleep env.minimumRefreshRate env.actionRefreshRate)]
            | ok :: _ =>
              if ok then
                es₀ ++ es₁ ++ [Event.update (marshalTimeBlob (env.now + 60)) true,
                        Event.emit ("current time is " ++ api.timeStr),
                        Event.sleep (effectiveSleep env.minimumRefreshRate env.actionRefreshRate)]
              else es₀ ++ es₁ ++ [Event.update (marshalTimeBlob (env.now + 60)) false]
          else
            es₀ ++ es₁ ++ [Event.sleep (effectiveSleep env.minimumRefreshRate env.actionRefreshRate)]

/-- `TimerReactionGiveTime` (timer-service.go lines 371-384): result string
and events (the reaction makes no repository call and no sleep). -/
def timerReactionGiveTime (timeApi : Option TimeApiResponse) : String × List Event :=
  match timeApi with
  | none => ("error get actual time", [])
  | some api => ("current time is " ++ api.timeStr, [])

/-! ## Spotify service (`spotify-service.go`, `src/unnamed/part_008`) -/

/-- Modelled from the spec: the Spotify storage-flag type
(`schemas.SpotifyStorageVariable`) lives in a schema file absent from
`src/`; the spec describes it as the handler-owned stored flag that is
true after a fire.  Its uses in `part_008` constrain it to three distinct
sentinel values compared by equality and serialised through
`encoding/json`; they are modelled as integers serialised as a JSON
number, `Init` being the pre-unmarshal default. -/
def SpotifyStorageVariableInit : Int := 0

/-- Modelled from the spec: the `true` sentinel of the Spotify stored
flag (set when the watched track is playing and the fact has been
emitted). -/
def SpotifyStorageVariableTrue : Int := 1

/-- Modelled from the spec: the `false` sentinel of the Spotify stored
flag (the handler's default initial state). -/
def SpotifyStorageVariableFalse : Int := 2

/-- Unmarshalling the area blob into the (integer-valued) Spotify storage
variable preset to `Init`: a JSON number is taken, `null` is a no-op
leaving `Init`, anything else is a decode error. -/
def decodeSpotifyVar : Blob → Option Int
  | .json .null => some SpotifyStorageVariableInit
  | .json (.num n) => some n
  | _ => none

/-- Marshalling the Spotify storage variable back to bytes. -/
def marshalSpotifyVar (v : Int) : Blob :=
  .json (.num v)

/-- Option payload of the `MusicPlayed` Action
(`schemas.SpotifyActionMusicPlayedOption`, a single `Name` string). -/
structure SpotifyActionMusicPlayedOption where
  name : String
deriving DecidableEq, Repr

/-- Decoding the Spotify Action option. -/
def decodeSpotifyOption : Blob → Option SpotifyActionMusicPlayedOption
  | .json .null => some ⟨""⟩
  | .json (.obj fields) =>
    match decodeStrField fields "name" with
    | some n => some ⟨n⟩
    | none => none
  | _ => none

/-- Result of `InitializedSpotifyStorageVariable`: the variable handed to
the caller, whether an error was returned (the caller only logs it and
continues), the events performed, and the remaining update oracle. -/
structure SpotifyInitResult where
  value : Int
  err : Bool
  events : List Event
  updates : List Bool

/-- `InitializedSpotifyStorageVariable` (part_008 lines 433-474):
unmarshal the area blob into the flag preset to `Init`; on failure probe
with `struct{}{}` and, if the probe succeeds, persist the default `False`
flag; a decoded or probed `Init` is likewise replaced by a persisted
`False`. -/
def initializedSpotifyStorageVariable (storage : Blob) (updates : List Bool) :
    SpotifyInitResult :=
  match decodeSpotifyVar storage with
  | some v =>
    if v = SpotifyStorageVariableInit then
      match updates with
      | [] => ⟨SpotifyStorageVariableFalse, false,
              [Event.update (marshalSpotifyVar SpotifyStorageVariableFalse) true], []⟩
      | ok :: rest =>
        if ok then ⟨SpotifyStorageVariableFalse, false,
                   [Event.update (marshalSpotifyVar SpotifyStorageVariableFalse) true], rest⟩
        else ⟨SpotifyStorageVariableFalse, true,
             [Event.update (marshalSpotifyVar SpotifyStorageVariableFalse) false], rest⟩
    else ⟨v, false, [], updates⟩
  | none =>
    if probeOk storage then
      match updates with
      | [] => ⟨SpotifyStorageVariableFalse, false,
              [Event.update (marshalSpotifyVar SpotifyStorageVariableFalse) true], []⟩
      | ok :: rest =>
        if ok then ⟨SpotifyStorageVariableFalse, false,
                   [Event.update (marshalSpotifyVar SpotifyStorageVariableFalse) true], rest⟩
        else ⟨SpotifyStorageVariableFalse, true,
             [Event.update (marshalSpotifyVar SpotifyStorageVariableFalse) false], rest⟩
    else ⟨SpotifyStorageVariableInit, true, [], updates⟩

/-- The playback state `getSpotifyPlaybackResponse` returns: whether a
track is playing, its name, and its artist names. -/
structure SpotifyPlayback where
  isPlaying : Bool
  itemName : String
  artists : List String
deriving DecidableEq, Repr

/-- Environment of one `SpotifyActionMusicPlayed` invocation.
`playback` is `none` when `getSpotifyPlaybackResponse` returns a non-nil
error (request creation, transport, or body decode); a non-2xx status is
NOT such an error: the helper (part_008 lines 408-411) then returns the
zero `SpotifyPlaybackResponse` with a nil error, i.e. `some` of the zero
playback, and the handler proceeds as if nothing were playing. -/
structure SpotifyEnv where
  option : Blob
  storage : Blob
  tokenOk : Bool
  playback : Option SpotifyPlayback
  updates : List Bool
  minimumRefreshRate : Nat
  actionRefreshRate : Nat

/-- `SpotifyActionMusicPlayed` (part_008 lines 496-596).  Option decode
errors return with no events; an init error is only logged; a token or
playback error returns after the init events; a fire requires the stored
flag to be `False` and persists `True` before the emit; a non-matching or
stopped track resets a `True` flag to `False`; every completed invocation
ends with the `MinimumRefreshRate`/`ActionRefreshRate` sleep.
`strings.EqualFold` is modelled by comparison of lower-cased strings. -/
def spotifyActionMusicPlayed (env : SpotifyEnv) : List Event :=
  match decodeSpotifyOption env.option with
  | none => []
  | some opt =>
    let r := initializedSpotifyStorageVariable env.storage env.updates
    if env.tokenOk then
      match env.playback with
      | none => r.events
      | some p =>
        if p.isPlaying then
          if p.itemName.toLower = opt.name.toLower then
            if r.value = SpotifyStorageVariableFalse then
              match r.updates with
              | [] =>
                r.events ++ [Event.update (marshalSpotifyVar SpotifyStorageVariableTrue) true,
                  Event.emit ("Currently playing: " ++ p.itemName ++ " by " ++
                    String.intercalate ", " p.artists),
                  Event.sleep (effectiveSleep env.minimumRefreshRate env.actionRefreshRate)]
              | ok :: _ =>
                if ok then
                  r.events ++ [Event.update (marshalSpotifyVar SpotifyStorageVariableTrue) true,
                    Event.emit ("Currently playing: " ++ p.itemName ++ " by " ++
                      String.intercalate ", " p.artists),
                    Event.sleep (effectiveSleep env.minimumRefreshRate env.actionRefreshRate)]
                else
                  r.events ++ [Event.update (marshalSpotifyVar SpotifyStorageVariableTrue) false]
            else
              r.events ++ [Event.sleep (effectiveSleep env.minimumRefreshRate env.actionRefreshRate)]
          else
            if r.value = SpotifyStorageVariableTrue then
              match r.updates with
              | [] =>
                r.events ++ [Event.update (marshalSpotifyVar SpotifyStorageVariableFalse) true,
                  Event.sleep (effectiveSleep env.minimumRefreshRate env.actionRefreshRate)]
              | ok :: _ =>
                if ok then
                  r.events ++ [Event.update (marshalSpotifyVar SpotifyStorageVariableFalse) true,
                    Event.sleep (effectiveSleep env.minimumRefreshRate env.actionRefreshRate)]
                else
                  r.events ++ [Event.update (marshalSpotifyVar SpotifyStorageVariableFalse) false]
            else
              r.events ++ [Event.sleep (effectiveSleep env.minimumRefreshRate env.actionRefreshRate)]
        else
          if r.value = SpotifyStorageVariableTrue then
            match r.updates with
            | [] =>
              r.events ++ [Event.update (marshalSpotifyVar SpotifyStorageVariableFalse) true,
                Event.sleep (effectiveSleep env.minimumRefreshRate env.actionRefreshRate)]
            | ok :: _ =>
              if ok then
                r.events ++ [Event.update (marshalSpotifyVar SpotifyStorageVariableFalse) true,
                  Event.sleep (effectiveSleep env.minimumRefreshRate env.actionRefreshRate)]
              else
                r.events ++ [Event.update (marshalSpotifyVar SpotifyStorageVariableFalse) false]
          else
            r.events ++ [Event.sleep (effectiveSleep env.minimumRefreshRate env.actionRefreshRate)]
    else r.events

/-- Environment of one `SpotifyReactionSkipNextMusic` invocation: the
token lookup (error text or token string) and the request-creation and
request-execution errors, when any. -/
structure SpotifyReactionEnv where
  tokenResult : Except String String
  createError : Option String
  requestError : Option String

/-- `SpotifyReactionSkipNextMusic` (part_008 lines 612-657): result string
and events; the reaction makes no repository call. -/
def spotifyReactionSkipNextMusic (env : SpotifyReactionEnv) : String × List Event :=
  match env.tokenResult with
  | .error e => ("Error finding token:" ++ e, [])
  | .ok tok =>
    if tok = "" then ("Error: Token not found", [])
    else
      match env.createError with
      | some e => ("Error creating request:" ++ e, [])
      | none =>
        match env.requestError with
        | some e => ("Error making request:" ++ e, [])
        | none => ("Spotify skip next music", [])

/-! ## Microsoft service (`microsoft-service.go`, `src/unnamed/part_000`) -/

/-- A fall-through block result: the value carried to the next block, the
events performed so far, and the remaining update-outcome oracle. -/
structure BlockResult (α : Type) where
  value : α
  events : List Event
  updates : List Bool

/-- The Microsoft storage-initialisation statements (part_000 lines
282-291 and 296-305): marshal a storage struct holding `initValue` and
call `areaRepository.Update` with the returned error discarded, so the
handler continues whether or not the repository call succeeded. -/
def microsoftStorageInit (initValue : Int) (updates : List Bool) : BlockResult Int :=
  ⟨initValue, [Event.update (marshalTimeBlob initValue) (updates.headD true)], updates.tail⟩

/-- One entry of the Graph messages response as the handler reads it:
sender address, subject, and the `time.Parse` of `ReceivedDateTime`
(`none` models a parse error). -/
structure MicrosoftMail where
  fromAddr : String
  subject : String
  received : Option Int
deriving DecidableEq, Repr

/-- Environment of one `MicrosoftActionReceiveMail` invocation: the
`FindById` result carrying the area's storage blob (`none` models a
repository error), the token lookup, the messages request (`none` models
a request-creation, request, non-200 or decode failure), the clock and
the update oracle. -/
structure MicrosoftEnv where
  area : Option Blob
  tokenOk : Bool
  mails : Option (List MicrosoftMail)
  now : Int
  updates : List Bool

/-- `MicrosoftActionReceiveMail` (part_000 lines 262-392).  The storage
blob is re-initialised to `time.Now().Add(-time.Hour)` through the probe
and `IsZero` checks, with the repository error discarded; token and
request failures return after the storage events; a fire takes the first
message only, persists its receive time plus one second (repository error
again discarded) before sending the fact; the completed invocation ends
with a fixed ten-second sleep. -/
def microsoftActionReceiveMail (env : MicrosoftEnv) : List Event :=
  match env.area with
  | none => []
  | some storage =>
    match
      (match decodeTimeBlob storage with
       | some t => some (BlockResult.mk t [] env.updates)
       | none =>
         if probeOk storage then some (microsoftStorageInit (env.now - 3600) env.updates)
         else none) with
    | none => []
    | some r₀ =>
      let r₁ :=
        if r₀.value = 0 then
          let r := microsoftStorageInit (env.now - 3600) r₀.updates
          BlockResult.mk r.value (r₀.events ++ r.events) r.updates
        else r₀
      if env.tokenOk then
        match env.mails with
        | none => r₁.events
        | some [] => r₁.events ++ [Event.sleep 10]
        | some (m :: _) =>
          match m.received with
          | none => r₁.events
          | some rcv =>
            r₁.events ++ [Event.update (marshalTimeBlob (rcv + 1)) (r₁.updates.headD true),
              Event.emit ("New email received from " ++ m.fromAddr ++ ": object: " ++ m.subject),
              Event.sleep 10]
      else r₁.events

/-- Option payload of the `SendMicrosoftMail` Reaction
(`schemas.MicrosoftReactionSendMailOptions`). -/
structure MicrosoftReactionSendMailOptions where
  subject : String
  body : String
  recipient : String
deriving DecidableEq, Repr

/-- Environment of one `MicrosoftReactionSendMail` invocation; error
constructors carry the Go error text used in the result string.  The
payload marshal cannot fail (a map of strings) and has no branch. -/
structure MicrosoftSendMailEnv where
  optionResult : Except String MicrosoftReactionSendMailOptions
  areaResult : Except String Unit
  tokenResult : Except String String
  createError : Option String
  requestError : Option String
  statusAccepted : Bool
  errorBody : String

/-- `MicrosoftReactionSendMail` (part_000 lines 394-482): result string
and events; the reaction makes no repository call. -/
def microsoftReactionSendMail (env : MicrosoftSendMailEnv) : String × List Event :=
  match env.optionResult with
  | .error e => ("Error unmarshalling options: " ++ e, [])
  | .ok _ =>
    match env.areaResult with
    | .error e => ("Error finding area: " ++ e, [])
    | .ok _ =>
      match env.tokenResult with
      | .error e => ("Error finding token: " ++ e, [])
      | .ok tok =>
        if tok = "" then ("Error: Token not found", [])
        else
          match env.createError with
          | some e => ("Error creating HTTP request: " ++ e, [])
          | none =>
            match env.requestError with
            | some e => ("Error sending email request: " ++ e, [])
            | none =>
              if env.statusAccepted then ("Email sent successfully!", [])
              else ("Error sending email: " ++ env.errorBody, [])

/-! ## OpenWeatherMap service (`backend/service/openweathermap-service.go`) -/

/-- Option payload of the `SpecificWeather` Action
(`schemas.OpenweathermapActionSpecificWeather`). -/
structure OwmActionSpecificWeatherOption where
  city : String
  weather : String
deriving DecidableEq, Repr

/-- Decoding the OpenWeatherMap Action option. -/
def decodeOwmOption : Blob → Option OwmActionSpecificWeatherOption
  | .json .null => some ⟨"", ""⟩
  | .json (.obj fields) =>
    match decodeStrField fields "city", decodeStrField fields "weather" with
    | some c, some w => some ⟨c, w⟩
    | _, _ => none
  | _ => none

/-- Environment of one `OpenweathermapActionSpecificWeather` invocation.
`cityLookupPanics` models `result[0]` of an empty geocoding response
(which kills the goroutine before any event); a `getCoordinatesOfCity`
error is only logged, the zero coordinates flowing on, so it is folded
into the final weather-call outcome; `weather` is `none` on a
`getWeatherOfCoodinate` error and otherwise lists the `Weather[].Main`
values of the response. -/
structure OwmEnv where
  option : Blob
  cityLookupPanics : Bool
  weather : Option (List String)

/-- `OpenweathermapActionSpecificWeather` (openweathermap-service.go
lines 240-269).  An option decode error sleeps one second; a weather
fetch error is logged and the invocation still sleeps; `Weather[0]` of an
empty list panics, aborting the invocation; a match emits the fact, with
no state ever read or persisted; every non-aborted path ends with a fixed
one-minute sleep, independent of any refresh-rate field. -/
def owmActionSpecificWeather (env : OwmEnv) : List Event :=
  match decodeOwmOption env.option with
  | none => [Event.sleep 1]
  | some opt =>
    if env.cityLookupPanics then []
    else
      match env.weather with
      | none => [Event.sleep 60]
      | some [] => []
      | some (w :: _) =>
        if w = opt.weather then
          [Event.emit ("current weather in " ++ opt.city ++ " is " ++ w), Event.sleep 60]
        else [Event.sleep 60]

/-- Environment of one `OpenweathermapReactionCurrentWeather`
invocation. -/
structure OwmReactionEnv where
  option : Blob
  cityLookupPanics : Bool
  weather : Option (List String)

/-- `OpenweathermapReactionCurrentWeather` (openweathermap-service.go
lines 305-330): result string and events (the error strings elide the Go
error suffix; an aborted panic path yields no result).  The reaction
makes no repository call; its only event is the one-second sleep on an
option decode error. -/
def owmReactionCurrentWeather (env : OwmReactionEnv) : String × List Event :=
  match decodeOwmOption env.option with
  | none => ("error unmarshal weather option", [Event.sleep 1])
  | some opt =>
    if env.cityLookupPanics then ("", [])
    else
      match env.weather with
      | none => ("error get actual weather info", [])
      | some [] => ("", [])
      | some (w :: _) =>
        ("current weather in " ++ opt.city ++ " is " ++ w, [])

/-! ## Capability names and per-service resolution (`FindActionByName` /
`FindReactionByName` switches) -/

/-- `schemas.SpecificTime` (timer schema). -/
def SpecificTime : String := "SpecificTime"

/-- `schemas.GiveTime` (timer schema). -/
def GiveTime : String := "GiveTime"

/-- `schemas.SpecificWeather` (openweathermap schema). -/
def SpecificWeather : String := "SpecificWeather"

/-- `schemas.SpecificTemperature` (openweathermap schema). -/
def SpecificTemperature : String := "SpecificTemperature"

/-- `schemas.CurrentWeather` (openweathermap schema). -/
def CurrentWeather : String := "CurrentWeather"

/-- `schemas.CurrentTemperature` (openweathermap schema). -/
def CurrentTemperature : String := "CurrentTemperature"

/-- Modelled from the spec: `schemas.MusicPlayed`, the Spotify Action
capability name, declared in a schema file absent from `src/`; the value
follows the sibling schemas' pattern of a constant equal to its own
name.  Only its identity matters to the resolution claims. -/
def MusicPlayed : String := "MusicPlayed"

/-- Modelled from the spec: `schemas.SkipNextMusic`, a Spotify Reaction
capability name declared in a schema file absent from `src/`. -/
def SkipNextMusic : String := "SkipNextMusic"

/-- Modelled from the spec: `schemas.SkipPreviousMusic`, a Spotify
Reaction capability name declared in a schema file absent from `src/`. -/
def SkipPreviousMusic : String := "SkipPreviousMusic"

/-- Modelled from the spec: `schemas.ReceiveMicrosoftMail`, the Microsoft
Action capability name declared in a schema file absent from `src/`. -/
def ReceiveMicrosoftMail : String := "ReceiveMicrosoftMail"

/-- Modelled from the spec: `schemas.SendMicrosoftMail`, the Microsoft
Reaction capability name declared in a schema file absent from `src/`. -/
def SendMicrosoftMail : String := "SendMicrosoftMail"

/-- The timer service's Action handlers, as resolution targets. -/
inductive TimerActionFn where
  | specificHour
deriving DecidableEq, Repr

/-- The timer service's Reaction handlers, as resolution targets. -/
inductive TimerReactionFn where
  | giveTime
deriving DecidableEq, Repr

/-- The Spotify service's Action handlers, as resolution targets. -/
inductive SpotifyActionFn where
  | musicPlayed
deriving DecidableEq, Repr

/-- The Spotify service's Reaction handlers, as resolution targets. -/
inductive SpotifyReactionFn where
  | skipNextMusic
  | skipPreviousMusic
deriving DecidableEq, Repr

/-- The OpenWeatherMap service's Action handlers, as resolution
targets. -/
inductive OwmActionFn where
  | specificWeather
  | specificTemperature
deriving DecidableEq, Repr

/-- The OpenWeatherMap service's Reaction handlers, as resolution
targets.  `FindReactionbyName` has no case for `CurrentTemperature`, so
only `CurrentWeather` is a target. -/
inductive OwmReactionFn where
  | currentWeather
deriving DecidableEq, Repr

/-- The Microsoft service's Action handlers, as resolution targets. -/
inductive MicrosoftActionFn where
  | receiveMail
deriving DecidableEq, Repr

/-- The Microsoft service's Reaction handlers, as resolution targets. -/
inductive MicrosoftReactionFn where
  | sendMail
deriving DecidableEq, Repr

/-- The GitHub service has no Action handlers (its switch has only the
default case). -/
inductive GithubActionFn where
deriving DecidableEq

/-- The GitHub service has no Reaction handlers. -/
inductive GithubReactionFn where
deriving DecidableEq

/-- `timerService.FindActionByName` (timer-service.go lines 96-105). -/
def timerFindActionByName (name : String) : Option TimerActionFn :=
  if name = SpecificTime then some TimerActionFn.specificHour else none

/-- `timerService.FindReactionByName` (timer-service.go lines 118-127). -/
def timerFindReactionByName (name : String) : Option TimerReactionFn :=
  if name = GiveTime then some TimerReactionFn.giveTime else none

/-- `spotifyService.FindActionByName` (part_008 lines 99-108). -/
def spotifyFindActionByName (name : String) : Option SpotifyActionFn :=
  if name = MusicPlayed then some SpotifyActionFn.musicPlayed else none

/-- `spotifyService.FindReactionByName` (part_008 lines 121-132). -/
def spotifyFindReactionByName (name : String) : Option SpotifyReactionFn :=
  if name = SkipNextMusic then some SpotifyReactionFn.skipNextMusic
  else if name = SkipPreviousMusic then some SpotifyReactionFn.skipPreviousMusic
  else none

/-- `openweathermapService.FindActionbyName` (openweathermap-service.go
lines 76-87). -/
def owmFindActionbyName (name : String) : Option OwmActionFn :=
  if name = SpecificWeather then some OwmActionFn.specificWeather
  else if name = SpecificTemperature then some OwmActionFn.specificTemperature
  else none

/-- `openweathermapService.FindReactionbyName` (openweathermap-service.go
lines 89-98). -/
def owmFindReactionbyName (name : String) : Option OwmReactionFn :=
  if name = CurrentWeather then some OwmReactionFn.currentWeather else none

/-- `microsoftService.FindActionbyName` (part_000 lines 132-141). -/
def microsoftFindActionbyName (name : String) : Option MicrosoftActionFn :=
  if name = ReceiveMicrosoftMail then some MicrosoftActionFn.receiveMail else none

/-- `microsoftService.FindReactionbyName` (part_000 lines 143-152). -/
def microsoftFindReactionbyName (name : String) : Option MicrosoftReactionFn :=
  if name = SendMicrosoftMail then some MicrosoftReactionFn.sendMail else none

/-- `githubService.FindActionbyName` (part_004 lines 74-81): the switch
has only the default `nil` case. -/
def githubFindActionbyName (_name : String) : Option GithubActionFn :=
  none

/-- `githubService.FindReactionbyName` (part_004 lines 83-90). -/
def githubFindReactionbyName (_name : String) : Option GithubReactionFn :=
  none

/-! ## Capability information queries (`GetServiceActionInfo` /
`GetServiceReactionInfo`) -/

/-- The `actionsName`/`reactionsName` slices a service value accumulates
(`openweathermapService` and `microsoftService` fields). -/
structure ServiceNames where
  actionsName : List String
  reactionsName : List String
deriving DecidableEq, Repr

/-- One entry of the OpenWeatherMap info responses (old-style
`schemas.Action`/`schemas.Reaction` with a string option and no minimum
refresh rate). -/
structure OwmInfoEntry where
  name : String
  description : String
  service : String
  option : String
deriving DecidableEq, Repr

/-- `openweathermapService.GetServiceActionInfo` (openweathermap-service.go
lines 100-120): appends both action names to the receiver's
`actionsName` slice on every call, then returns the two action entries
(the service field comes from `serviceRepository.FindByName`). -/
def owmGetServiceActionInfo (serviceFound : String) (s : ServiceNames) :
    ServiceNames × List OwmInfoEntry :=
  (⟨s.actionsName ++ [SpecificWeather, SpecificTemperature], s.reactionsName⟩,
   [⟨SpecificWeather, "This action is a specific weather action", serviceFound,
     "\x7b\"city\": \"\", \"weather\": \"\"\x7d"⟩,
    ⟨SpecificTemperature, "This action is a specific temperature action", serviceFound,
     "\x7b\"city\": \"\", \"temperature\": 0\x7d"⟩])

/-- `openweathermapService.GetServiceReactionInfo` (openweathermap-service.go
lines 122-142): appends both reaction names to the receiver's
`reactionsName` slice on every call. -/
def owmGetServiceReactionInfo (serviceFound : String) (s : ServiceNames) :
    ServiceNames × List OwmInfoEntry :=
  (⟨s.actionsName, s.reactionsName ++ [CurrentWeather, CurrentTemperature]⟩,
   [⟨CurrentWeather, "This reaction is a current weather reaction", serviceFound,
     "\x7b\"city\": \"\"\x7d"⟩,
    ⟨CurrentTemperature, "This reaction is a current teamperature reaction", serviceFound,
     "\x7b\"city\": \"\"\x7d"⟩])

/-- `microsoftService.GetServiceReactionInfo` (part_000 lines 105-130):
appends `SendMicrosoftMail` to the receiver's `reactionName` slice on
every call and returns the single reaction entry (its option payload is
the marshalled default `MicrosoftReactionSendMailOptions`). -/
def microsoftGetServiceReactionInfo (serviceFound : String) (s : ServiceNames) :
    ServiceNames × List (String × String × String) :=
  (⟨s.actionsName, s.reactionsName ++ [SendMicrosoftMail]⟩,
   [(SendMicrosoftMail, "Send a mail using Microsoft services", serviceFound)])

/-! ## Trace observations -/

/-- An `areaRepository.Update` call. -/
def isUpdate : Event → Bool
  | .update _ _ => true
  | _ => false

/-- A fact sent on the channel. -/
def isEmit : Event → Bool
  | .emit _ => true
  | _ => false

/-- Number of facts a trace sends on the channel. -/
def emitCount (es : List Event) : Nat :=
  (es.filter isEmit).length

/-- Every emitted fact is immediately preceded by an `Update` call (the
persist of the state the fire produced), whether or not the repository
reported success. -/
def factAfterPersistCall : List Event → Bool
  | [] => true
  | .emit _ :: _ => false
  | .update _ _ :: .emit _ :: rest => factAfterPersistCall rest
  | _ :: rest => factAfterPersistCall rest

/-- Every emitted fact is immediately preceded by an `Update` call that
the repository reported successful. -/
def factAfterPersistOk : List Event → Bool
  | [] => true
  | .emit _ :: _ => false
  | .update _ true :: .emit _ :: rest => factAfterPersistOk rest
  | _ :: rest => factAfterPersistOk rest

/-- The blob of the last `Update` call of a trace: what the invocation
leaves persisted (when any call was made). -/
def lastPersisted (es : List Event) : Option Blob :=
  (es.filterMap fun e => match e with | .update b _ => some b | _ => none).getLast?

/-! ## Theorems -/

/-- C8: for every service, resolving a capability name returns the handler
bound to that exact name when the name is registered and `none` for every
other name; resolution never falls back to a default handler. -/
theorem resolution_exact_name_or_notfound :
    ∀ name : String,
      (timerFindActionByName name = some TimerActionFn.specificHour ↔ name = SpecificTime)
      ∧ (name ≠ SpecificTime → timerFindActionByName name = none)
      ∧ (timerFindReactionByName name = some TimerReactionFn.giveTime ↔ name = GiveTime)
      ∧ (name ≠ GiveTime → timerFindReactionByName name = none)
      ∧ (spotifyFindActionByName name = some SpotifyActionFn.musicPlayed ↔ name = MusicPlayed)
      ∧ (name ≠ MusicPlayed → spotifyFindActionByName name = none)
      ∧ (spotifyFindReactionByName name = some SpotifyReactionFn.skipNextMusic ↔ name = SkipNextMusic)
      ∧ (spotifyFindReactionByName name = some SpotifyReactionFn.skipPreviousMusic ↔ name = SkipPreviousMusic)
      ∧ (name ≠ SkipNextMusic → name ≠ SkipPreviousMusic → spotifyFindReactionByName name = none)
      ∧ (owmFindActionbyName name = some OwmActionFn.specificWeather ↔ name = SpecificWeather)
      ∧ (owmFindActionbyName name = some OwmActionFn.specificTemperature ↔ name = SpecificTemperature)
      ∧ (name ≠ SpecificWeather → name ≠ SpecificTemperature → owmFindActionbyName name = none)
      ∧ (owmFindReactionbyName name = some OwmReactionFn.currentWeather ↔ name = CurrentWeather)
      ∧ (name ≠ CurrentWeather → owmFindReactionbyName name = none)
      ∧ (microsoftFindActionbyName name = some MicrosoftActionFn.receiveMail ↔ name = ReceiveMicrosoftMail)
      ∧ (name ≠ ReceiveMicrosoftMail → microsoftFindActionbyName name = none)
      ∧ (microsoftFindReactionbyName name = some MicrosoftReactionFn.sendMail ↔ name = SendMicrosoftMail)
      ∧ (name ≠ SendMicrosoftMail → microsoftFindReactionbyName name = none)
      ∧ githubFindActionbyName name = none
      ∧ githubFindReactionbyName name = none := by
  intro name
  unfold timerFindActionByName timerFindReactionByName spotifyFindActionByName
    spotifyFindReactionByName owmFindActionbyName owmFindReactionbyName
    microsoftFindActionbyName microsoftFindReactionbyName githubFindActionbyName
    githubFindReactionbyName
  refine ⟨?_, ?_, ?_, ?_, ?_, ?_, ?_, ?_, ?_, ?_, ?_, ?_, ?_, ?_, ?_, ?_, ?_, ?_, ?_, ?_⟩ <;>
    intros <;> (repeat' split) <;> simp_all <;>
    simp_all [SpecificTime, GiveTime, MusicPlayed, SkipNextMusic, SkipPreviousMusic,
      SpecificWeather, SpecificTemperature, CurrentWeather, ReceiveMicrosoftMail,
      SendMicrosoftMail]

/-- C8 witness: at the concrete unregistered name `NoSuchCapability`,
resolution reports not-found for the timer and Spotify action switches. -/
theorem resolution_exact_name_or_notfound_witness :
    timerFindActionByName "NoSuchCapability" = none
    ∧ spotifyFindActionByName "NoSuchCapability" = none :=
  ⟨(resolution_exact_name_or_notfound "NoSuchCapability").2.1 (by decide),
   (resolution_exact_name_or_notfound "NoSuchCapability").2.2.2.2.2.1 (by decide)⟩

/-- C5 counterexample: one call to the OpenWeatherMap
`GetServiceActionInfo` already changes the service value, appending both
action names to its `actionsName` slice, so the query is not a pure read
of an immutable registry. -/
theorem capability_query_not_pure_counterexample :
    (owmGetServiceActionInfo "weather service" ⟨[], []⟩).1 ≠ (⟨[], []⟩ : ServiceNames) := by
  decide

/-- C5 amended: the info queries return the same entry list on every call,
but the OpenWeatherMap queries append the capability names to the
receiver's name slices on each call, and the Microsoft reaction query
appends `SendMicrosoftMail` likewise; querying is a side-effecting
accumulation, not a pure read. -/
theorem capability_query_accumulates :
    (∀ svc : String, ∀ s : ServiceNames,
      (owmGetServiceActionInfo svc s).2 = (owmGetServiceActionInfo svc ⟨[], []⟩).2
      ∧ (owmGetServiceActionInfo svc s).1.actionsName
          = s.actionsName ++ [SpecificWeather, SpecificTemperature]
      ∧ (owmGetServiceActionInfo svc s).1.reactionsName = s.reactionsName)
    ∧ (∀ svc : String, ∀ s : ServiceNames,
      (owmGetServiceReactionInfo svc s).2 = (owmGetServiceReactionInfo svc ⟨[], []⟩).2
      ∧ (owmGetServiceReactionInfo svc s).1.reactionsName
          = s.reactionsName ++ [CurrentWeather, CurrentTemperature])
    ∧ (∀ svc : String, ∀ s : ServiceNames,
      (microsoftGetServiceReactionInfo svc s).2 = (microsoftGetServiceReactionInfo svc ⟨[], []⟩).2
      ∧ (microsoftGetServiceReactionInfo svc s).1.reactionsName
          = s.reactionsName ++ [SendMicrosoftMail]) := by
  refine ⟨?_, ?_, ?_⟩ <;> intro svc s <;>
    simp [owmGetServiceActionInfo, owmGetServiceReactionInfo, microsoftGetServiceReactionInfo]

/-- C6: Reaction handler invocations only return their outcome as the
result string; they never call `areaRepository.Update`, so the unit's
persisted `StorageVariable` is untouched and nothing is fed back into the
Action handler's state, on success or failure. -/
theorem reaction_invocation_leaves_state_unchanged :
    (∀ t : Option TimeApiResponse, (timerReactionGiveTime t).2 = [])
    ∧ (∀ env : SpotifyReactionEnv, (spotifyReactionSkipNextMusic env).2 = [])
    ∧ (∀ env : MicrosoftSendMailEnv, (microsoftReactionSendMail env).2 = [])
    ∧ (∀ env : OwmReactionEnv, (owmReactionCurrentWeather env).2.filter isUpdate = []) := by
  refine ⟨?_, ?_, ?_, ?_⟩
  · intro t
    unfold timerReactionGiveTime
    (repeat' split) <;> rfl
  · intro env
    unfold spotifyReactionSkipNextMusic
    (repeat' split) <;> rfl
  · intro env
    unfold microsoftReactionSendMail
    (repeat' split) <;> rfl
  · intro env
    unfold owmReactionCurrentWeather
    (repeat' split) <;> rfl

/-- Round trip of the single-time-field storage struct. -/
theorem decodeTimeBlob_marshal (t : Int) : decodeTimeBlob (marshalTimeBlob t) = some t := rfl

/-- Round trip of the Spotify storage variable. -/
theorem decodeSpotifyVar_marshal (v : Int) : decodeSpotifyVar (marshalSpotifyVar v) = some v := rfl

/-- Case analysis of the shared timer initialisation statements. -/
theorem timerStorageInit_cases (v : Int) (upd : List Bool) :
    timerStorageInit v upd = Step.cont v [Event.update (marshalTimeBlob v) true] upd.tail
    ∨ timerStorageInit v upd = Step.done [Event.update (marshalTimeBlob v) false] := by
  rcases upd with _ | ⟨ok, rest⟩
  · exact Or.inl rfl
  · cases ok
    · exact Or.inr rfl
    · exact Or.inl rfl

/-- Case analysis of the timer storage-variable block. -/
theorem timerStorageBlock_cases (storage : Blob) (now : Int) (upd : List Bool) :
    (∃ t, decodeTimeBlob storage = some t ∧
       timerStorageBlock storage now upd = Step.cont t [] upd)
    ∨ (decodeTimeBlob storage = none ∧ probeOk storage = true ∧
       (timerStorageBlock storage now upd
          = Step.cont now [Event.update (marshalTimeBlob now) true] upd.tail
        ∨ timerStorageBlock storage now upd
          = Step.done [Event.update (marshalTimeBlob now) false]))
    ∨ (decodeTimeBlob storage = none ∧ probeOk storage = false ∧
       timerStorageBlock storage now upd = Step.done []) := by
  unfold timerStorageBlock
  cases hdec : decodeTimeBlob storage with
  | some t => exact Or.inl ⟨t, rfl, rfl⟩
  | none =>
    cases hp : probeOk storage with
    | true =>
      refine Or.inr (Or.inl ⟨rfl, rfl, ?_⟩)
      simpa using timerStorageInit_cases now upd
    | false => exact Or.inr (Or.inr ⟨rfl, rfl, rfl⟩)

/-- Case analysis of the timer `IsZero` block. -/
theorem timerZeroBlock_cases (t now : Int) (upd : List Bool) :
    (t ≠ 0 ∧ timerZeroBlock t now upd = Step.cont t [] upd)
    ∨ (t = 0 ∧
       (timerZeroBlock t now upd
          = Step.cont now [Event.update (marshalTimeBlob now) true] upd.tail
        ∨ timerZeroBlock t now upd = Step.done [Event.update (marshalTimeBlob now) false])) := by
  unfold timerZeroBlock
  by_cases hz : t = 0
  · rw [if_pos hz]
    exact Or.inr ⟨hz, timerStorageInit_cases now upd⟩
  · rw [if_neg hz]
    exact Or.inl ⟨hz, rfl⟩

/-- Every trace one `TimerActionSpecificHour` invocation can produce, by
exhaustive analysis of the handler's control flow. -/
theorem timerTrace_shapes (env : TimerEnv) :
    timerActionSpecificHour env = []
    ∨ timerActionSpecificHour env = [Event.sleep 1]
    ∨ timerActionSpecificHour env = [Event.update (marshalTimeBlob env.now) false]
    ∨ timerActionSpecificHour env
        = [Event.update (marshalTimeBlob env.now) true, Event.update (marshalTimeBlob env.now) false]
    ∨ timerActionSpecificHour env
        = [Event.sleep (effectiveSleep env.minimumRefreshRate env.actionRefreshRate)]
    ∨ timerActionSpecificHour env
        = [Event.update (marshalTimeBlob env.now) true,
           Event.sleep (effectiveSleep env.minimumRefreshRate env.actionRefreshRate)]
    ∨ timerActionSpecificHour env
        = [Event.update (marshalTimeBlob env.now) true, Event.update (marshalTimeBlob env.now) true,
           Event.sleep (effectiveSleep env.minimumRefreshRate env.actionRefreshRate)]
    ∨ timerActionSpecificHour env = [Event.update (marshalTimeBlob (env.now + 60)) false]
    ∨ timerActionSpecificHour env
        = [Event.update (marshalTimeBlob env.now) true,
           Event.update (marshalTimeBlob (env.now + 60)) false]
    ∨ timerActionSpecificHour env
        = [Event.update (marshalTimeBlob env.now) true, Event.update (marshalTimeBlob env.now) true,
           Event.update (marshalTimeBlob (env.now + 60)) false]
    ∨ (∃ api, env.timeApi = some api ∧
        (timerActionSpecificHour env
           = [Event.update (marshalTimeBlob (env.now + 60)) true,
              Event.emit ("current time is " ++ api.timeStr),
              Event.sleep (effectiveSleep env.minimumRefreshRate env.actionRefreshRate)]
         ∨ timerActionSpecificHour env
           = [Event.update (marshalTimeBlob env.now) true,
              Event.update (marshalTimeBlob (env.now + 60)) true,
              Event.emit ("current time is " ++ api.timeStr),
              Event.sleep (effectiveSleep env.minimumRefreshRate env.actionRefreshRate)]
         ∨ timerActionSpecificHour env
           = [Event.update (marshalTimeBlob env.now) true, Event.update (marshalTimeBlob env.now) true,
              Event.update (marshalTimeBlob (env.now + 60)) true,
              Event.emit ("current time is " ++ api.timeStr),
              Event.sleep (effectiveSleep env.minimumRefreshRate env.actionRefreshRate)])) := by
  unfold timerActionSpecificHour
  cases hopt : decodeTimerOption env.option with
  | none => exact Or.inr (Or.inl rfl)
  | some opt =>
  cases hapi : env.timeApi with
  | none => exact Or.inr (Or.inl rfl)
  | some api =>
  rcases timerStorageBlock_cases env.storage env.now env.updates with
    ⟨t, hdec, hB⟩ | ⟨hdec, hp, hB | hB⟩ | ⟨hdec, hp, hB⟩ <;> rw [hB] <;> dsimp only
  · -- storage decoded to t, no events yet
    rcases timerZeroBlock_cases t env.now env.updates with ⟨hne, hZ⟩ | ⟨hz, hZ | hZ⟩ <;>
      rw [hZ] <;> dsimp only <;> (repeat' split) <;>
      first
      | exact Or.inl rfl
      | exact Or.inr (Or.inl rfl)
      | exact Or.inr (Or.inr (Or.inl rfl))
      | exact Or.inr (Or.inr (Or.inr (Or.inl rfl)))
      | exact Or.inr (Or.inr (Or.inr (Or.inr (Or.inl rfl))))
      | exact Or.inr (Or.inr (Or.inr (Or.inr (Or.inr (Or.inl rfl)))))
      | exact Or.inr (Or.inr (Or.inr (Or.inr (Or.inr (Or.inr (Or.inl rfl))))))
      | exact Or.inr (Or.inr (Or.inr (Or.inr (Or.inr (Or.inr (Or.inr (Or.inl rfl)))))))
      | exact Or.inr (Or.inr (Or.inr (Or.inr (Or.inr (Or.inr (Or.inr (Or.inr (Or.inl rfl))))))))
      | exact Or.inr (Or.inr (Or.inr (Or.inr (Or.inr (Or.inr (Or.inr (Or.inr (Or.inr (Or.inl rfl)))))))))
      | exact Or.inr (Or.inr (Or.inr (Or.inr (Or.inr (Or.inr (Or.inr (Or.inr (Or.inr (Or.inr
          ⟨api, rfl, Or.inl rfl⟩)))))))))
      | exact Or.inr (Or.inr (Or.inr (Or.inr (Or.inr (Or.inr (Or.inr (Or.inr (Or.inr (Or.inr
          ⟨api, rfl, Or.inr (Or.inl rfl)⟩)))))))))
      | exact Or.inr (Or.inr (Or.inr (Or.inr (Or.inr (Or.inr (Or.inr (Or.inr (Or.inr (Or.inr
          ⟨api, rfl, Or.inr (Or.inr rfl)⟩)))))))))
  · -- storage re-initialised (one successful update), value `env.now`
    rcases timerZeroBlock_cases env.now env.now env.updates.tail with ⟨hne, hZ⟩ | ⟨hz, hZ | hZ⟩ <;>
      rw [hZ] <;> dsimp only <;> (repeat' split) <;>
      first
      | exact Or.inl rfl
      | exact Or.inr (Or.inl rfl)
      | exact Or.inr (Or.inr (Or.inl rfl))
      | exact Or.inr (Or.inr (Or.inr (Or.inl rfl)))
      | exact Or.inr (Or.inr (Or.inr (Or.inr (Or.inl rfl))))
      | exact Or.inr (Or.inr (Or.inr (Or.inr (Or.inr (Or.inl rfl)))))
      | exact Or.inr (Or.inr (Or.inr (Or.inr (Or.inr (Or.inr (Or.inl rfl))))))
      | exact Or.inr (Or.inr (Or.inr (Or.inr (Or.inr (Or.inr (Or.inr (Or.inl rfl)))))))
      | exact Or.inr (Or.inr (Or.inr (Or.inr (Or.inr (Or.inr (Or.inr (Or.inr (Or.inl rfl))))))))
      | exact Or.inr (Or.inr (Or.inr (Or.inr (Or.inr (Or.inr (Or.inr (Or.inr (Or.inr (Or.inl rfl)))))))))
      | exact Or.inr (Or.inr (Or.inr (Or.inr (Or.inr (Or.inr (Or.inr (Or.inr (Or.inr (Or.inr
          ⟨api, rfl, Or.inl rfl⟩)))))))))
      | exact Or.inr (Or.inr (Or.inr (Or.inr (Or.inr (Or.inr (Or.inr (Or.inr (Or.inr (Or.inr
          ⟨api, rfl, Or.inr (Or.inl rfl)⟩)))))))))
      | exact Or.inr (Or.inr (Or.inr (Or.inr (Or.inr (Or.inr (Or.inr (Or.inr (Or.inr (Or.inr
          ⟨api, rfl, Or.inr (Or.inr rfl)⟩)))))))))
  · -- storage re-initialisation failed: trace is the failed update
    exact Or.inr (Or.inr (Or.inl rfl))
  · -- both unmarshals failed: empty trace
    exact Or.inl rfl

/-- Case analysis of `InitializedSpotifyStorageVariable`. -/
theorem initializedSpotifyStorageVariable_cases (storage : Blob) (upd : List Bool) :
    (∃ v, decodeSpotifyVar storage = some v ∧ v ≠ SpotifyStorageVariableInit ∧
       initializedSpotifyStorageVariable storage upd = ⟨v, false, [], upd⟩)
    ∨ initializedSpotifyStorageVariable storage upd
        = ⟨SpotifyStorageVariableFalse, false,
           [Event.update (marshalSpotifyVar SpotifyStorageVariableFalse) true], upd.tail⟩
    ∨ initializedSpotifyStorageVariable storage upd
        = ⟨SpotifyStorageVariableFalse, true,
           [Event.update (marshalSpotifyVar SpotifyStorageVariableFalse) false], upd.tail⟩
    ∨ (decodeSpotifyVar storage = none ∧ probeOk storage = false ∧
       initializedSpotifyStorageVariable storage upd = ⟨SpotifyStorageVariableInit, true, [], upd⟩) := by
  unfold initializedSpotifyStorageVariable
  cases hdec : decodeSpotifyVar storage with
  | some v =>
    dsimp only
    by_cases hv : v = SpotifyStorageVariableInit
    · rw [if_pos hv]
      rcases upd with _ | ⟨ok, rest⟩
      · exact Or.inr (Or.inl rfl)
      · cases ok
        · exact Or.inr (Or.inr (Or.inl rfl))
        · exact Or.inr (Or.inl rfl)
    · rw [if_neg hv]
      exact Or.inl ⟨v, rfl, hv, rfl⟩
  | none =>
    cases hp : probeOk storage with
    | true =>
      dsimp only
      rcases upd with _ | ⟨ok, rest⟩
      · exact Or.inr (Or.inl rfl)
      · cases ok
        · exact Or.inr (Or.inr (Or.inl rfl))
        · exact Or.inr (Or.inl rfl)
    | false => exact Or.inr (Or.inr (Or.inr ⟨rfl, rfl, rfl⟩))

set_option maxHeartbeats 1600000 in
/-- Every trace one `SpotifyActionMusicPlayed` invocation can produce:
the events of the storage initialisation followed by one of the
fire/reset/no-change/early-return tails. -/
theorem spotifyTrace_shapes (env : SpotifyEnv) :
    spotifyActionMusicPlayed env = []
    ∨ (∃ es, (es = ([] : List Event)
           ∨ es = [Event.update (marshalSpotifyVar SpotifyStorageVariableFalse) true]
           ∨ es = [Event.update (marshalSpotifyVar SpotifyStorageVariableFalse) false]) ∧
        (spotifyActionMusicPlayed env = es
         ∨ spotifyActionMusicPlayed env
             = es ++ [Event.sleep (effectiveSleep env.minimumRefreshRate env.actionRefreshRate)]
         ∨ spotifyActionMusicPlayed env
             = es ++ [Event.update (marshalSpotifyVar SpotifyStorageVariableFalse) true,
                      Event.sleep (effectiveSleep env.minimumRefreshRate env.actionRefreshRate)]
         ∨ spotifyActionMusicPlayed env
             = es ++ [Event.update (marshalSpotifyVar SpotifyStorageVariableFalse) false]
         ∨ spotifyActionMusicPlayed env
             = es ++ [Event.update (marshalSpotifyVar SpotifyStorageVariableTrue) false]
         ∨ (∃ p, env.playback = some p ∧
             spotifyActionMusicPlayed env
               = es ++ [Event.update (marshalSpotifyVar SpotifyStorageVariableTrue) true,
                        Event.emit ("Currently playing: " ++ p.itemName ++ " by " ++
                          String.intercalate ", " p.artists),
                        Event.sleep (effectiveSleep env.minimumRefreshRate env.actionRefreshRate)]))) := by
  unfold spotifyActionMusicPlayed
  cases hopt : decodeSpotifyOption env.option with
  | none => exact Or.inl rfl
  | some opt =>
    dsimp only
    rcases initializedSpotifyStorageVariable_cases env.storage env.updates with
      ⟨v, hdec, hne, hI⟩ | hI | hI | ⟨hdec, hp, hI⟩ <;> rw [hI] <;> dsimp only <;>
      cases hpb : env.playback <;> (try dsimp only) <;> (repeat' split) <;>
      first
      | exact Or.inl rfl
      | exact Or.inr ⟨[], Or.inl rfl, Or.inl rfl⟩
      | exact Or.inr ⟨[], Or.inl rfl, Or.inr (Or.inl rfl)⟩
      | exact Or.inr ⟨[], Or.inl rfl, Or.inr (Or.inr (Or.inl rfl))⟩
      | exact Or.inr ⟨[], Or.inl rfl, Or.inr (Or.inr (Or.inr (Or.inl rfl)))⟩
      | exact Or.inr ⟨[], Or.inl rfl, Or.inr (Or.inr (Or.inr (Or.inr (Or.inl rfl))))⟩
      | exact Or.inr ⟨[], Or.inl rfl,
          Or.inr (Or.inr (Or.inr (Or.inr (Or.inr ⟨_, rfl, rfl⟩))))⟩
      | exact Or.inr ⟨[Event.update (marshalSpotifyVar SpotifyStorageVariableFalse) true],
          Or.inr (Or.inl rfl), Or.inl rfl⟩
      | exact Or.inr ⟨[Event.update (marshalSpotifyVar SpotifyStorageVariableFalse) true],
          Or.inr (Or.inl rfl), Or.inr (Or.inl rfl)⟩
      | exact Or.inr ⟨[Event.update (marshalSpotifyVar SpotifyStorageVariableFalse) true],
          Or.inr (Or.inl rfl), Or.inr (Or.inr (Or.inl rfl))⟩
      | exact Or.inr ⟨[Event.update (marshalSpotifyVar SpotifyStorageVariableFalse) true],
          Or.inr (Or.inl rfl), Or.inr (Or.inr (Or.inr (Or.inl rfl)))⟩
      | exact Or.inr ⟨[Event.update (marshalSpotifyVar SpotifyStorageVariableFalse) true],
          Or.inr (Or.inl rfl), Or.inr (Or.inr (Or.inr (Or.inr (Or.inl rfl))))⟩
      | exact Or.inr ⟨[Event.update (marshalSpotifyVar SpotifyStorageVariableFalse) true],
          Or.inr (Or.inl rfl), Or.inr (Or.inr (Or.inr (Or.inr (Or.inr ⟨_, rfl, rfl⟩))))⟩
      | exact Or.inr ⟨[Event.update (marshalSpotifyVar SpotifyStorageVariableFalse) false],
          Or.inr (Or.inr rfl), Or.inl rfl⟩
      | exact Or.inr ⟨[Event.update (marshalSpotifyVar SpotifyStorageVariableFalse) false],
          Or.inr (Or.inr rfl), Or.inr (Or.inl rfl)⟩
      | exact Or.inr ⟨[Event.update (marshalSpotifyVar SpotifyStorageVariableFalse) false],
          Or.inr (Or.inr rfl), Or.inr (Or.inr (Or.inl rfl))⟩
      | exact Or.inr ⟨[Event.update (marshalSpotifyVar SpotifyStorageVariableFalse) false],
          Or.inr (Or.inr rfl), Or.inr (Or.inr (Or.inr (Or.inl rfl)))⟩
      | exact Or.inr ⟨[Event.update (marshalSpotifyVar SpotifyStorageVariableFalse) false],
          Or.inr (Or.inr rfl), Or.inr (Or.inr (Or.inr (Or.inr (Or.inl rfl))))⟩
      | exact Or.inr ⟨[Event.update (marshalSpotifyVar SpotifyStorageVariableFalse) false],
          Or.inr (Or.inr rfl), Or.inr (Or.inr (Or.inr (Or.inr (Or.inr ⟨_, rfl, rfl⟩))))⟩

set_option maxHeartbeats 1600000 in
/-- Every trace one `MicrosoftActionReceiveMail` invocation can produce:
the (error-ignoring) storage initialisation events followed by an early
return, the no-mail sleep, or the fire tail. -/
theorem microsoftTrace_shapes (env : MicrosoftEnv) :
    microsoftActionReceiveMail env = []
    ∨ (∃ es, (es = ([] : List Event)
          ∨ (∃ k, es = [Event.update (marshalTimeBlob (env.now - 3600)) k])
          ∨ (∃ k k₂, es = [Event.update (marshalTimeBlob (env.now - 3600)) k,
                           Event.update (marshalTimeBlob (env.now - 3600)) k₂])) ∧
        (microsoftActionReceiveMail env = es
         ∨ microsoftActionReceiveMail env = es ++ [Event.sleep 10]
         ∨ (∃ rcv a s k₃,
             microsoftActionReceiveMail env
               = es ++ [Event.update (marshalTimeBlob (rcv + 1)) k₃,
                        Event.emit ("New email received from " ++ a ++ ": object: " ++ s),
                        Event.sleep 10]))) := by
  unfold microsoftActionReceiveMail microsoftStorageInit
  cases harea : env.area with
  | none => exact Or.inl rfl
  | some storage =>
    dsimp only
    cases hdec : decodeTimeBlob storage with
    | some t =>
      dsimp only
      (repeat' split) <;>
      first
      | exact Or.inl rfl
      | exact Or.inr ⟨_, Or.inl rfl, Or.inl rfl⟩
      | exact Or.inr ⟨_, Or.inl rfl, Or.inr (Or.inl rfl)⟩
      | exact Or.inr ⟨_, Or.inl rfl, Or.inr (Or.inr ⟨_, _, _, _, rfl⟩)⟩
      | exact Or.inr ⟨_, Or.inr (Or.inl ⟨_, rfl⟩), Or.inl rfl⟩
      | exact Or.inr ⟨_, Or.inr (Or.inl ⟨_, rfl⟩), Or.inr (Or.inl rfl)⟩
      | exact Or.inr ⟨_, Or.inr (Or.inl ⟨_, rfl⟩), Or.inr (Or.inr ⟨_, _, _, _, rfl⟩)⟩
      | exact Or.inr ⟨_, Or.inr (Or.inr ⟨_, _, rfl⟩), Or.inl rfl⟩
      | exact Or.inr ⟨_, Or.inr (Or.inr ⟨_, _, rfl⟩), Or.inr (Or.inl rfl)⟩
      | exact Or.inr ⟨_, Or.inr (Or.inr ⟨_, _, rfl⟩), Or.inr (Or.inr ⟨_, _, _, _, rfl⟩)⟩
    | none =>
      dsimp only
      by_cases hp : probeOk storage = true
      · rw [if_pos hp]
        dsimp only
        (repeat' split) <;>
        first
        | exact Or.inl rfl
        | exact Or.inr ⟨_, Or.inl rfl, Or.inl rfl⟩
        | exact Or.inr ⟨_, Or.inl rfl, Or.inr (Or.inl rfl)⟩
        | exact Or.inr ⟨_, Or.inl rfl, Or.inr (Or.inr ⟨_, _, _, _, rfl⟩)⟩
        | exact Or.inr ⟨_, Or.inr (Or.inl ⟨_, rfl⟩), Or.inl rfl⟩
        | exact Or.inr ⟨_, Or.inr (Or.inl ⟨_, rfl⟩), Or.inr (Or.inl rfl)⟩
        | exact Or.inr ⟨_, Or.inr (Or.inl ⟨_, rfl⟩), Or.inr (Or.inr ⟨_, _, _, _, rfl⟩)⟩
        | exact Or.inr ⟨_, Or.inr (Or.inr ⟨_, _, rfl⟩), Or.inl rfl⟩
        | exact Or.inr ⟨_, Or.inr (Or.inr ⟨_, _, rfl⟩), Or.inr (Or.inl rfl)⟩
        | exact Or.inr ⟨_, Or.inr (Or.inr ⟨_, _, rfl⟩), Or.inr (Or.inr ⟨_, _, _, _, rfl⟩)⟩
      · rw [if_neg hp]
        exact Or.inl rfl

/-- C10: every single Action handler invocation sends at most one fact on
its channel, over all four embedded Action handlers and every environment
(even when several qualifying events are observed, e.g. several new
e-mails in the Microsoft response, at most one fact is sent). -/
theorem action_emits_at_most_one_fact :
    (∀ env : TimerEnv, emitCount (timerActionSpecificHour env) ≤ 1)
    ∧ (∀ env : SpotifyEnv, emitCount (spotifyActionMusicPlayed env) ≤ 1)
    ∧ (∀ env : MicrosoftEnv, emitCount (microsoftActionReceiveMail env) ≤ 1)
    ∧ (∀ env : OwmEnv, emitCount (owmActionSpecificWeather env) ≤ 1) := by
  refine ⟨?_, ?_, ?_, ?_⟩
  · intro env
    rcases timerTrace_shapes env with
      h | h | h | h | h | h | h | h | h | h | ⟨api, hapi, h | h | h⟩ <;>
      rw [h] <;> simp [emitCount, isEmit]
  · intro env
    rcases spotifyTrace_shapes env with
      h | ⟨es, rfl | rfl | rfl, h | h | h | h | h | ⟨p, hp, h⟩⟩ <;>
      rw [h] <;> simp [emitCount, isEmit]
  · intro env
    rcases microsoftTrace_shapes env with
      h | ⟨es, rfl | ⟨k, rfl⟩ | ⟨k, k₂, rfl⟩, h | h | ⟨rcv, a, s, k₃, h⟩⟩ <;>
      rw [h] <;> simp [emitCount, isEmit]
  · intro env
    unfold owmActionSpecificWeather
    cases hopt : decodeOwmOption env.option with
    | none => simp [emitCount, isEmit]
    | some opt =>
      dsimp only
      (repeat' split) <;> simp [emitCount, isEmit]

/-- C7 counterexample: the OpenWeatherMap `SpecificWeather` Action fires
and sends its fact without any `StorageVariable` persist at all — its
trace contains an emit with no repository update before it. -/
theorem fact_before_persist_counterexample :
    owmActionSpecificWeather
        ⟨Blob.json (Json.obj [("city", Json.str "Paris"), ("weather", Json.str "Rain")]),
         false, some ["Rain"]⟩
      = [Event.emit "current weather in Paris is Rain", Event.sleep 60]
    ∧ factAfterPersistCall
        [Event.emit "current weather in Paris is Rain", Event.sleep 60] = false :=
  ⟨rfl, rfl⟩

/-- C7 amended: for the stateful Action handlers (timer, Spotify,
Microsoft), every emitted fact is immediately preceded in the trace by the
`areaRepository.Update` call persisting the new state; the OpenWeatherMap
actions keep no state and emit without persisting. -/
theorem fact_emitted_after_persist_call :
    (∀ env : TimerEnv, factAfterPersistCall (timerActionSpecificHour env) = true)
    ∧ (∀ env : SpotifyEnv, factAfterPersistCall (spotifyActionMusicPlayed env) = true)
    ∧ (∀ env : MicrosoftEnv, factAfterPersistCall (microsoftActionReceiveMail env) = true) := by
  refine ⟨?_, ?_, ?_⟩
  · intro env
    rcases timerTrace_shapes env with
      h | h | h | h | h | h | h | h | h | h | ⟨api, hapi, h | h | h⟩ <;> rw [h] <;> rfl
  · intro env
    rcases spotifyTrace_shapes env with
      h | ⟨es, rfl | rfl | rfl, h | h | h | h | h | ⟨p, hp, h⟩⟩ <;> rw [h] <;> rfl
  · intro env
    rcases microsoftTrace_shapes env with
      h | ⟨es, rfl | ⟨k, rfl⟩ | ⟨k, k₂, rfl⟩, h | h | ⟨rcv, a, s, k₃, h⟩⟩ <;> rw [h] <;> rfl

/-- C9 counterexample: when the repository rejects the firing persist, the
Microsoft receive-mail Action still sends its fact: the `Update` error is
discarded (part_000 line 385) and the channel send follows anyway. -/
theorem no_fact_on_failed_persist_counterexample :
    microsoftActionReceiveMail
        ⟨some (marshalTimeBlob 5), true, some [⟨"alice@example.com", "Hello", some 1000⟩],
         0, [false]⟩
      = [Event.update (marshalTimeBlob 1001) false,
         Event.emit "New email received from alice@example.com: object: Hello",
         Event.sleep 10]
    ∧ factAfterPersistOk
        [Event.update (marshalTimeBlob 1001) false,
         Event.emit "New email received from alice@example.com: object: Hello",
         Event.sleep 10] = false :=
  ⟨rfl, rfl⟩

/-- C9 amended: the timer and Spotify Action handlers never emit a fact
whose state write did not complete — in every trace each emit is
immediately preceded by an `Update` call the repository accepted; the
Microsoft handler instead ignores the persist error and emits anyway. -/
theorem no_fact_on_failed_persist :
    (∀ env : TimerEnv, factAfterPersistOk (timerActionSpecificHour env) = true)
    ∧ (∀ env : SpotifyEnv, factAfterPersistOk (spotifyActionMusicPlayed env) = true) := by
  refine ⟨?_, ?_⟩
  · intro env
    rcases timerTrace_shapes env with
      h | h | h | h | h | h | h | h | h | h | ⟨api, hapi, h | h | h⟩ <;> rw [h] <;> rfl
  · intro env
    rcases spotifyTrace_shapes env with
      h | ⟨es, rfl | rfl | rfl, h | h | h | h | h | ⟨p, hp, h⟩⟩ <;> rw [h] <;> rfl

/-- C1 counterexample: the OpenWeatherMap `SpecificWeather` Action's
inter-cycle sleep is a fixed sixty seconds, not
`max(handlerMinimumRefreshRate, refreshRateOverride)`: the handler never
reads either field, so a unit with override 120 still sleeps 60 seconds
(and 60 is not `max 0 120`). -/
theorem effective_sleep_counterexample :
    owmActionSpecificWeather
        ⟨Blob.json (Json.obj [("city", Json.str "Paris"), ("weather", Json.str "Rain")]),
         false, some ["Rain"]⟩
      = [Event.emit "current weather in Paris is Rain", Event.sleep 60]
    ∧ (60 : Nat) ≠ max 0 120 :=
  ⟨rfl, by decide⟩

/-- C1 amended: the comparison the timer and Spotify Actions perform for
their inter-cycle sleep equals `max(minimumRefreshRate, actionRefreshRate)`
and is never below the declared minimum, and every sleep those two
handlers perform is either the timer's one-second error backoff or exactly
that effective interval; the OpenWeatherMap actions instead sleep a fixed
sixty seconds (or one second on an option decode error) regardless of
both fields. -/
theorem effective_sleep_is_max :
    (∀ m r : Nat, effectiveSleep m r = max m r ∧ m ≤ effectiveSleep m r)
    ∧ (∀ (env : TimerEnv) (n : Nat), Event.sleep n ∈ timerActionSpecificHour env →
        n = 1 ∨ n = effectiveSleep env.minimumRefreshRate env.actionRefreshRate)
    ∧ (∀ (env : SpotifyEnv) (n : Nat), Event.sleep n ∈ spotifyActionMusicPlayed env →
        n = effectiveSleep env.minimumRefreshRate env.actionRefreshRate)
    ∧ (∀ (env : OwmEnv) (n : Nat), Event.sleep n ∈ owmActionSpecificWeather env →
        n = 1 ∨ n = 60) := by
  refine ⟨?_, ?_, ?_, ?_⟩
  · intro m r
    constructor <;> unfold effectiveSleep <;> split <;> omega
  · intro env n hmem
    rcases timerTrace_shapes env with
      h | h | h | h | h | h | h | h | h | h | ⟨api, hapi, h | h | h⟩ <;>
      rw [h] at hmem <;> simp at hmem <;> omega
  · intro env n hmem
    rcases spotifyTrace_shapes env with
      h | ⟨es, rfl | rfl | rfl, h | h | h | h | h | ⟨p, hp, h⟩⟩ <;>
      rw [h] at hmem <;> simp at hmem <;> omega
  · intro env n hmem
    unfold owmActionSpecificWeather at hmem
    rcases hopt : decodeOwmOption env.option with _ | opt <;> rw [hopt] at hmem
    · simp at hmem
      omega
    · dsimp only at hmem
      (repeat' split at hmem) <;> simp at hmem <;> omega

/-- C1 witness: at minimum refresh rate 10 and override 7 the effective
sleep is `max 10 7 = 10` and at least the floor, and a concrete completed
timer invocation with those rates sleeps exactly that interval. -/
theorem effective_sleep_is_max_witness :
    (effectiveSleep 10 7 = max 10 7 ∧ 10 ≤ effectiveSleep 10 7)
    ∧ ((10 : Nat) = 1 ∨ (10 : Nat) = effectiveSleep 10 7) :=
  ⟨effective_sleep_is_max.1 10 7,
   effective_sleep_is_max.2.1
     ⟨Blob.json (Json.obj []), some ⟨0, 5, 5, "s"⟩, marshalTimeBlob 50, 0, [], 10, 7⟩
     10 (List.Mem.head _)⟩

/-- C2 counterexample: on the empty state blob (zero bytes are not valid
JSON, so both the shape unmarshal and the `struct{}{}` probe fail) the
timer Action aborts the invocation with no event at all: no default state
is synthesized, nothing is persisted, and no backoff is slept. -/
theorem corruption_recovery_counterexample :
    timerActionSpecificHour
        ⟨Blob.json (Json.obj []), some ⟨100, 13, 7, "now"⟩, Blob.empty, 1000, [], 10, 5⟩
      = [] :=
  rfl

/-- C2 amended: first-run recovery applies exactly to stored blobs that
are valid JSON of the wrong shape (the `struct{}{}` probe succeeds:
objects and `null`): there the handler synthesizes its default initial
state and persists it via the area repository.  On blobs that are not
valid JSON — including the empty blob — or valid JSON the probe rejects
(strings, numbers, arrays), no default is synthesized and nothing is
persisted: the timer Action logs and returns with no event, aborting the
invocation, while the Spotify Action only logs the initialisation error
and still runs the remainder of the cycle with the in-memory `Init`
value. -/
theorem corruption_recovery_amended :
    (∀ (env : TimerEnv) (opt : TimerActionSpecificHourOption) (api : TimeApiResponse),
       decodeTimerOption env.option = some opt → env.timeApi = some api →
       decodeTimeBlob env.storage = none → probeOk env.storage = false →
       timerActionSpecificHour env = [])
    ∧ (∀ (env : TimerEnv) (opt : TimerActionSpecificHourOption) (api : TimeApiResponse),
       decodeTimerOption env.option = some opt → env.timeApi = some api →
       decodeTimeBlob env.storage = none → probeOk env.storage = true → env.updates = [] →
       Event.update (marshalTimeBlob env.now) true ∈ timerActionSpecificHour env)
    ∧ (∀ (env : SpotifyEnv) (opt : SpotifyActionMusicPlayedOption),
       decodeSpotifyOption env.option = some opt →
       decodeSpotifyVar env.storage = none → probeOk env.storage = true → env.updates = [] →
       Event.update (marshalSpotifyVar SpotifyStorageVariableFalse) true
         ∈ spotifyActionMusicPlayed env)
    ∧ (∀ (env : SpotifyEnv) (opt : SpotifyActionMusicPlayedOption) (p : SpotifyPlayback),
       decodeSpotifyOption env.option = some opt →
       decodeSpotifyVar env.storage = none → probeOk env.storage = false →
       env.tokenOk = true → env.playback = some p → p.isPlaying = false →
       spotifyActionMusicPlayed env
         = [Event.sleep (effectiveSleep env.minimumRefreshRate env.actionRefreshRate)]) := by
  refine ⟨?_, ?_, ?_, ?_⟩
  · intro env opt api hopt hapi hdec hprobe
    unfold timerActionSpecificHour
    rw [hopt]
    dsimp only
    rw [hapi]
    dsimp only
    have hB : timerStorageBlock env.storage env.now env.updates = Step.done [] := by
      unfold timerStorageBlock
      rw [hdec, hprobe]
      rfl
    rw [hB]
  · intro env opt api hopt hapi hdec hprobe hupd
    unfold timerActionSpecificHour
    rw [hopt]
    dsimp only
    rw [hapi]
    dsimp only
    have hB : timerStorageBlock env.storage env.now env.updates
        = Step.cont env.now [Event.update (marshalTimeBlob env.now) true] [] := by
      unfold timerStorageBlock timerStorageInit
      rw [hdec, hprobe, hupd]
      rfl
    rw [hB]
    dsimp only
    rcases timerZeroBlock_cases env.now env.now [] with ⟨hne, hZ⟩ | ⟨hz, hZ | hZ⟩ <;>
      rw [hZ] <;> dsimp only <;> (repeat' split) <;> simp
  · intro env opt hopt hdec hprobe hupd
    unfold spotifyActionMusicPlayed
    rw [hopt]
    dsimp only
    have hI : initializedSpotifyStorageVariable env.storage env.updates
        = ⟨SpotifyStorageVariableFalse, false,
           [Event.update (marshalSpotifyVar SpotifyStorageVariableFalse) true], []⟩ := by
      unfold initializedSpotifyStorageVariable
      rw [hdec, hprobe, hupd]
      rfl
    rw [hI]
    dsimp only
    (repeat' split) <;> simp
  · intro env opt p hopt hdec hprobe htok hpb hplay
    unfold spotifyActionMusicPlayed
    rw [hopt]
    dsimp only
    have hI : initializedSpotifyStorageVariable env.storage env.updates
        = ⟨SpotifyStorageVariableInit, true, [], env.updates⟩ := by
      unfold initializedSpotifyStorageVariable
      rw [hdec, hprobe]
      rfl
    rw [hI]
    dsimp only
    rw [htok, hpb]
    dsimp only
    rw [hplay]
    rfl

/-- C2 witness: the theorem applied at concrete environments: a
wrong-shape JSON-object blob is recovered by the timer (the default
`{time: now}` is persisted) and by the Spotify initialisation (the
default `False` flag is persisted), while a Spotify invocation on the
empty blob persists nothing yet still completes its cycle with the
inter-cycle sleep. -/
theorem corruption_recovery_amended_witness :
    Event.update (marshalTimeBlob 1000) true
      ∈ timerActionSpecificHour
          ⟨Blob.json (Json.obj []), some ⟨100, 13, 7, "now"⟩,
           Blob.json (Json.obj [("time", Json.str "oops")]), 1000, [], 10, 5⟩
    ∧ Event.update (marshalSpotifyVar SpotifyStorageVariableFalse) true
        ∈ spotifyActionMusicPlayed
            ⟨Blob.json (Json.obj [("name", Json.str "Believer")]),
             Blob.json (Json.obj [("flag", Json.bool true)]), true,
             some ⟨false, "", []⟩, [], 10, 5⟩
    ∧ spotifyActionMusicPlayed
        ⟨Blob.json (Json.obj [("name", Json.str "Believer")]), Blob.empty, true,
         some ⟨false, "", []⟩, [], 10, 5⟩
      = [Event.sleep (effectiveSleep 10 5)] :=
  ⟨corruption_recovery_amended.2.1
     ⟨Blob.json (Json.obj []), some ⟨100, 13, 7, "now"⟩,
      Blob.json (Json.obj [("time", Json.str "oops")]), 1000, [], 10, 5⟩
     ⟨0, 0⟩ ⟨100, 13, 7, "now"⟩ rfl rfl rfl rfl rfl,
   corruption_recovery_amended.2.2.1
     ⟨Blob.json (Json.obj [("name", Json.str "Believer")]),
      Blob.json (Json.obj [("flag", Json.bool true)]), true,
      some ⟨false, "", []⟩, [], 10, 5⟩
     ⟨"Believer"⟩ rfl rfl rfl rfl,
   corruption_recovery_amended.2.2.2
     ⟨Blob.json (Json.obj [("name", Json.str "Believer")]), Blob.empty, true,
      some ⟨false, "", []⟩, [], 10, 5⟩
     ⟨"Believer"⟩ ⟨false, "", []⟩ rfl rfl rfl rfl rfl rfl⟩

/-- C3 counterexample: a Microsoft receive-mail invocation that fails the
token lookup returns immediately with no event at all — the persisted
state is untouched, but there is no one-second (nor any) backoff sleep. -/
theorem transient_error_backoff_counterexample :
    microsoftActionReceiveMail ⟨some (marshalTimeBlob 5), false, some [], 0, []⟩ = [] :=
  rfl

/-- C3 amended: on the transient errors the handlers detect (option
decode failure; the timer's upstream failure; Spotify's token-lookup and
playback request/decode failures; Microsoft's token-lookup, request,
non-2xx and body-decode failures) the handler logs, leaves the persisted
state blob unchanged and returns so the next cycle runs normally — but
only the timer Action (and the OpenWeatherMap option-decode path) waits
the short fixed one-second backoff; the Spotify and Microsoft handlers
return immediately with no backoff.  A non-2xx Spotify playback response
is not detected as an error at all: `getSpotifyPlaybackResponse` returns
the zero playback with a nil error, so the handler completes the cycle
treating it as nothing playing and persists `False` over a stored `True`
flag, mutating the state blob. -/
theorem transient_error_backoff_amended :
    (∀ env : TimerEnv, decodeTimerOption env.option = none →
        timerActionSpecificHour env = [Event.sleep 1])
    ∧ (∀ (env : TimerEnv) (opt : TimerActionSpecificHourOption),
        decodeTimerOption env.option = some opt → env.timeApi = none →
        timerActionSpecificHour env = [Event.sleep 1])
    ∧ (∀ env : SpotifyEnv, decodeSpotifyOption env.option = none →
        spotifyActionMusicPlayed env = [])
    ∧ (∀ (env : SpotifyEnv) (opt : SpotifyActionMusicPlayedOption) (v : Int),
        decodeSpotifyOption env.option = some opt →
        decodeSpotifyVar env.storage = some v → v ≠ SpotifyStorageVariableInit →
        env.tokenOk = false → spotifyActionMusicPlayed env = [])
    ∧ (∀ (env : SpotifyEnv) (opt : SpotifyActionMusicPlayedOption) (v : Int),
        decodeSpotifyOption env.option = some opt →
        decodeSpotifyVar env.storage = some v → v ≠ SpotifyStorageVariableInit →
        env.tokenOk = true → env.playback = none → spotifyActionMusicPlayed env = [])
    ∧ (∀ (env : MicrosoftEnv) (storage : Blob) (t : Int),
        env.area = some storage → decodeTimeBlob storage = some t → t ≠ 0 →
        env.tokenOk = false → microsoftActionReceiveMail env = [])
    ∧ (∀ (env : MicrosoftEnv) (storage : Blob) (t : Int),
        env.area = some storage → decodeTimeBlob storage = some t → t ≠ 0 →
        env.tokenOk = true → env.mails = none → microsoftActionReceiveMail env = [])
    ∧ (∀ (env : SpotifyEnv) (opt : SpotifyActionMusicPlayedOption),
        decodeSpotifyOption env.option = some opt →
        env.storage = marshalSpotifyVar SpotifyStorageVariableTrue →
        env.tokenOk = true → env.playback = some ⟨false, "", []⟩ → env.updates = [] →
        spotifyActionMusicPlayed env
          = [Event.update (marshalSpotifyVar SpotifyStorageVariableFalse) true,
             Event.sleep (effectiveSleep env.minimumRefreshRate env.actionRefreshRate)]) := by
  refine ⟨?_, ?_, ?_, ?_, ?_, ?_, ?_, ?_⟩
  · intro env h
    unfold timerActionSpecificHour
    rw [h]
  · intro env opt h₁ h₂
    unfold timerActionSpecificHour
    rw [h₁]
    dsimp only
    rw [h₂]
  · intro env h
    unfold spotifyActionMusicPlayed
    rw [h]
  · intro env opt v hopt hdec hne htok
    unfold spotifyActionMusicPlayed
    rw [hopt]
    dsimp only
    have hI : initializedSpotifyStorageVariable env.storage env.updates
        = ⟨v, false, [], env.updates⟩ := by
      unfold initializedSpotifyStorageVariable
      rw [hdec]
      dsimp only
      rw [if_neg hne]
    rw [hI]
    dsimp only
    rw [htok]
    rfl
  · intro env opt v hopt hdec hne htok hpb
    unfold spotifyActionMusicPlayed
    rw [hopt]
    dsimp only
    have hI : initializedSpotifyStorageVariable env.storage env.updates
        = ⟨v, false, [], env.updates⟩ := by
      unfold initializedSpotifyStorageVariable
      rw [hdec]
      dsimp only
      rw [if_neg hne]
    rw [hI]
    dsimp only
    rw [htok, hpb]
    rfl
  · intro env storage t harea hdec hne htok
    unfold microsoftActionReceiveMail
    rw [harea]
    dsimp only
    rw [hdec]
    dsimp only
    rw [if_neg hne, htok]
    rfl
  · intro env storage t harea hdec hne htok hmails
    unfold microsoftActionReceiveMail
    rw [harea]
    dsimp only
    rw [hdec]
    dsimp only
    rw [if_neg hne, htok, hmails]
    rfl
  · intro env opt hopt hstor htok hpb hupd
    unfold spotifyActionMusicPlayed
    rw [hopt]
    dsimp only
    rw [hstor]
    have hI : initializedSpotifyStorageVariable
          (marshalSpotifyVar SpotifyStorageVariableTrue) env.updates
        = ⟨SpotifyStorageVariableTrue, false, [], env.updates⟩ := rfl
    rw [hI]
    dsimp only
    rw [htok, hpb]
    dsimp only
    rw [hupd]
    rfl

/-- C3 witness: the theorem applied at concrete environments: a timer
invocation with an undecodable option sleeps exactly one second, a
Microsoft invocation with a failing token lookup performs no event, and a
Spotify invocation holding the stored `True` flag that receives the
zero (non-2xx) playback response persists `False` over it and sleeps the
effective interval. -/
theorem transient_error_backoff_amended_witness :
    timerActionSpecificHour
        ⟨Blob.malformed, some ⟨100, 13, 7, "now"⟩, marshalTimeBlob 5, 0, [], 10, 5⟩
      = [Event.sleep 1]
    ∧ microsoftActionReceiveMail ⟨some (marshalTimeBlob 7), false, some [], 3, []⟩ = []
    ∧ spotifyActionMusicPlayed
        ⟨Blob.json (Json.obj [("name", Json.str "Believer")]),
         marshalSpotifyVar SpotifyStorageVariableTrue, true, some ⟨false, "", []⟩, [], 10, 5⟩
      = [Event.update (marshalSpotifyVar SpotifyStorageVariableFalse) true,
         Event.sleep (effectiveSleep 10 5)] :=
  ⟨transient_error_backoff_amended.1
     ⟨Blob.malformed, some ⟨100, 13, 7, "now"⟩, marshalTimeBlob 5, 0, [], 10, 5⟩ rfl,
   transient_error_backoff_amended.2.2.2.2.2.1
     ⟨some (marshalTimeBlob 7), false, some [], 3, []⟩ (marshalTimeBlob 7) 7
     rfl rfl (by decide) rfl,
   transient_error_backoff_amended.2.2.2.2.2.2.2
     ⟨Blob.json (Json.obj [("name", Json.str "Believer")]),
      marshalSpotifyVar SpotifyStorageVariableTrue, true, some ⟨false, "", []⟩, [], 10, 5⟩
     ⟨"Believer"⟩ rfl rfl rfl rfl rfl⟩

/-- The Spotify initialisation is the identity on a persisted `True`
flag: it decodes, is neither a decode failure nor `Init`, and no event is
performed. -/
theorem spotifyInit_marshalTrue (upd : List Bool) :
    initializedSpotifyStorageVariable (marshalSpotifyVar SpotifyStorageVariableTrue) upd
      = ⟨SpotifyStorageVariableTrue, false, [], upd⟩ :=
  rfl

/-- C4: no double fire without a state-observable change.  A firing timer
invocation leaves `{time: now + one minute}` as the last persisted blob,
and an invocation started from a persisted blob `{time: t}` cannot fire
while the upstream time has not passed `t`; a firing Spotify invocation
leaves the `True` flag persisted, and an invocation started from the
persisted `True` flag never fires, whatever is playing. -/
theorem no_double_fire_without_state_change :
    (∀ (env : TimerEnv) (f : String), Event.emit f ∈ timerActionSpecificHour env →
        lastPersisted (timerActionSpecificHour env) = some (marshalTimeBlob (env.now + 60)))
    ∧ (∀ (env : TimerEnv) (t₀ : Int) (api : TimeApiResponse) (f : String),
        env.storage = marshalTimeBlob t₀ → t₀ ≠ 0 → env.timeApi = some api →
        api.instant ≤ t₀ → Event.emit f ∉ timerActionSpecificHour env)
    ∧ (∀ (env : SpotifyEnv) (f : String), Event.emit f ∈ spotifyActionMusicPlayed env →
        lastPersisted (spotifyActionMusicPlayed env)
          = some (marshalSpotifyVar SpotifyStorageVariableTrue))
    ∧ (∀ (env : SpotifyEnv) (f : String),
        env.storage = marshalSpotifyVar SpotifyStorageVariableTrue →
        Event.emit f ∉ spotifyActionMusicPlayed env) := by
  refine ⟨?_, ?_, ?_, ?_⟩
  · intro env f hmem
    rcases timerTrace_shapes env with
      h | h | h | h | h | h | h | h | h | h | ⟨api, hapi, h | h | h⟩ <;>
      rw [h] at hmem ⊢ <;> first | rfl | simp at hmem
  · intro env t₀ api f hstor hne hapi hle
    unfold timerActionSpecificHour
    cases hopt : decodeTimerOption env.option with
    | none => simp
    | some opt =>
      dsimp only
      rw [hapi]
      dsimp only
      have hB : timerStorageBlock env.storage env.now env.updates
          = Step.cont t₀ [] env.updates := by
        unfold timerStorageBlock
        rw [hstor, decodeTimeBlob_marshal]
      rw [hB]
      dsimp only
      have hZ : timerZeroBlock t₀ env.now env.updates = Step.cont t₀ [] env.updates := by
        unfold timerZeroBlock
        rw [if_neg hne]
      rw [hZ]
      dsimp only
      rw [if_neg (by rintro ⟨h₁, h₂⟩; omega)]
      simp
  · intro env f hmem
    rcases spotifyTrace_shapes env with
      h | ⟨es, rfl | rfl | rfl, h | h | h | h | h | ⟨p, hp, h⟩⟩ <;>
      rw [h] at hmem ⊢ <;> first | rfl | simp at hmem
  · intro env f hstor
    unfold spotifyActionMusicPlayed
    cases hopt : decodeSpotifyOption env.option with
    | none => simp
    | some opt =>
      dsimp only
      rw [hstor, spotifyInit_marshalTrue]
      dsimp only
      (repeat' split) <;>
        simp_all [SpotifyStorageVariableTrue, SpotifyStorageVariableFalse]

/-- C4 witness: a concrete firing timer invocation (stored time 50,
upstream time 100 at 13:07 with option 13:07, `now` 1000) leaves
`{time: 1060}` persisted; restarted from `{time: 1060}` with the upstream
clock not past 1060 it cannot fire; a Spotify invocation started from the
persisted `True` flag cannot fire. -/
theorem no_double_fire_without_state_change_witness :
    lastPersisted
        (timerActionSpecificHour
          ⟨Blob.json (Json.obj [("hour", Json.num 13), ("minute", Json.num 7)]),
           some ⟨100, 13, 7, "x"⟩, marshalTimeBlob 50, 1000, [], 10, 5⟩)
      = some (marshalTimeBlob 1060)
    ∧ Event.emit "refire"
        ∉ timerActionSpecificHour
            ⟨Blob.json (Json.obj [("hour", Json.num 13), ("minute", Json.num 7)]),
             some ⟨1060, 13, 7, "x"⟩, marshalTimeBlob 1060, 2000, [], 10, 5⟩
    ∧ Event.emit "respotify"
        ∉ spotifyActionMusicPlayed
            ⟨Blob.json (Json.obj [("name", Json.str "Believer")]),
             marshalSpotifyVar SpotifyStorageVariableTrue, true,
             some ⟨true, "Believer", ["Imagine Dragons"]⟩, [], 10, 5⟩ :=
  ⟨no_double_fire_without_state_change.1
     ⟨Blob.json (Json.obj [("hour", Json.num 13), ("minute", Json.num 7)]),
      some ⟨100, 13, 7, "x"⟩, marshalTimeBlob 50, 1000, [], 10, 5⟩
     "current time is x" (List.Mem.tail _ (List.Mem.head _)),
   no_double_fire_without_state_change.2.1
     ⟨Blob.json (Json.obj [("hour", Json.num 13), ("minute", Json.num 7)]),
      some ⟨1060, 13, 7, "x"⟩, marshalTimeBlob 1060, 2000, [], 10, 5⟩
     1060 ⟨1060, 13, 7, "x"⟩ "refire" rfl (by decide) rfl (by decide),
   no_double_fire_without_state_change.2.2.2
     ⟨Blob.json (Json.obj [("name", Json.str "Believer")]),
      marshalSpotifyVar SpotifyStorageVariableTrue, true,
      some ⟨true, "Believer", ["Imagine Dragons"]⟩, [], 10, 5⟩
     "respotify" rfl⟩
